import Mathlib

/-!
Shallow embedding of the EVERSE relationship-graph builder:
`scripts/models.py`, `scripts/build_relationships.py` and `scripts/validate.py`.

Python dictionaries (`Dict[str, …]`) are modelled as insertion-ordered
association lists with in-place update on an existing key; the four build
passes, the integrity validator, the query view and the export projection are
translated function by function.  Logging calls (`logger.warning`) are made
observable as lists of warning strings returned next to the mutated state.
-/

namespace Evapi

/-- A Python `dict[str, α]`: an insertion-ordered list of key/value pairs.
All maps built through the `add_*` operations keep their keys distinct. -/
abbrev AssocMap (α : Type) : Type := List (String × α)

namespace AssocMap

/-- Python `key in d`. -/
def contains (m : AssocMap α) (k : String) : Bool :=
  m.any (fun p => p.1 == k)

/-- Python `d.get(key)` (also `d[key]` when the key is present). -/
def find (m : AssocMap α) (k : String) : Option α :=
  (m.find? (fun p => p.1 == k)).map (fun p => p.2)

/-- Python `d[key] = v`: replace the value at the first matching key,
append a fresh entry otherwise (dict insertion order). -/
def insert : AssocMap α → String → α → AssocMap α
  | [], k, v => [(k, v)]
  | p :: m, k, v => if p.1 == k then (k, v) :: m else p :: insert m k v

end AssocMap

/-- `scripts/models.py` — `Indicator` (the opaque metadata bag is dropped;
`url` is kept as a plain optional string). -/
structure Indicator where
  id : String
  name : String
  description : Option String := none
  dimension : Option String := none
  category : Option String := none
  rationale : Option String := none
  url : Option String := none
  related_tools : List String := []
deriving DecidableEq

/-- `scripts/models.py` — `Tool`. -/
structure Tool where
  id : String
  name : String
  description : Option String := none
  url : Option String := none
  ring : Option String := none
  quadrant : Option String := none
  related_indicators : List String := []
deriving DecidableEq

/-- `scripts/models.py` — `Dimension`. -/
structure Dimension where
  id : String
  name : String
  description : Option String := none
  indicators : List String := []
deriving DecidableEq

/-- `scripts/models.py` — `RelationshipEdge`. -/
structure RelationshipEdge where
  source_id : String
  source_type : String
  target_id : String
  target_type : String
  relationship_type : String
deriving DecidableEq

/-- `scripts/build_relationships.py` — the state of `RelationshipBuilder`. -/
structure RelationshipBuilder where
  indicators : AssocMap Indicator := []
  tools : AssocMap Tool := []
  dimensions : AssocMap Dimension := []
  relationships : List RelationshipEdge := []
deriving DecidableEq

namespace RelationshipBuilder

/-- `add_indicators`: `for indicator in indicators: self.indicators[indicator.id] = indicator`. -/
def add_indicators (b : RelationshipBuilder) (xs : List Indicator) : RelationshipBuilder :=
  { b with indicators := xs.foldl (fun m x => m.insert x.id x) b.indicators }

/-- `add_tools`: `for tool in tools: self.tools[tool.id] = tool`. -/
def add_tools (b : RelationshipBuilder) (xs : List Tool) : RelationshipBuilder :=
  { b with tools := xs.foldl (fun m x => m.insert x.id x) b.tools }

/-- `add_dimensions`: `for dimension in dimensions: self.dimensions[dimension.id] = dimension`. -/
def add_dimensions (b : RelationshipBuilder) (xs : List Dimension) : RelationshipBuilder :=
  { b with dimensions := xs.foldl (fun m x => m.insert x.id x) b.dimensions }

end RelationshipBuilder

/-- Common shape of the four `build_*_relationships` passes: a nested loop over
items and the reference ids each item carries, appending an edge when the
referenced id resolves (`if … in self.…`) and a warning line otherwise. -/
def buildLoop (items : List α) (refs : α → List String) (ok : String → Bool)
    (mk : α → String → RelationshipEdge) (warn : α → String → String)
    (init : List RelationshipEdge × List String) : List RelationshipEdge × List String :=
  items.foldl (fun acc a =>
    (refs a).foldl (fun acc r =>
      if ok r then (acc.1 ++ [mk a r], acc.2) else (acc.1, acc.2 ++ [warn a r])) acc) init

namespace RelationshipBuilder

/-- `build_tool_to_indicator_relationships`: for every tool entry, for every id
in `tool.related_indicators`, emit a `measures` edge when the indicator exists,
else log a warning.  Edges are appended to `self.relationships`. -/
def build_tool_to_indicator_relationships (b : RelationshipBuilder) :
    RelationshipBuilder × List String :=
  let r := buildLoop b.tools (fun p => p.2.related_indicators)
    (fun indicator_id => b.indicators.contains indicator_id)
    (fun p indicator_id =>
      { source_id := p.1, source_type := "Tool",
        target_id := indicator_id, target_type := "Indicator",
        relationship_type := "measures" })
    (fun p indicator_id =>
      let tool_id := p.1
      s!"Tool {tool_id} references unknown indicator {indicator_id}")
    (b.relationships, [])
  ({ b with relationships := r.1 }, r.2)

/-- `build_indicator_to_tool_relationships`: for every indicator entry, for
every id in `indicator.related_tools`, emit a `measured_by` edge when the tool
exists, else log a warning. -/
def build_indicator_to_tool_relationships (b : RelationshipBuilder) :
    RelationshipBuilder × List String :=
  let r := buildLoop b.indicators (fun p => p.2.related_tools)
    (fun tool_id => b.tools.contains tool_id)
    (fun p tool_id =>
      { source_id := p.1, source_type := "Indicator",
        target_id := tool_id, target_type := "Tool",
        relationship_type := "measured_by" })
    (fun p tool_id =>
      let indicator_id := p.1
      s!"Indicator {indicator_id} references unknown tool {tool_id}")
    (b.relationships, [])
  ({ b with relationships := r.1 }, r.2)

/-- `build_dimension_to_indicator_relationships`: for every dimension entry,
for every id in `dimension.indicators`, emit a `contains` edge when the
indicator exists, else log a warning. -/
def build_dimension_to_indicator_relationships (b : RelationshipBuilder) :
    RelationshipBuilder × List String :=
  let r := buildLoop b.dimensions (fun p => p.2.indicators)
    (fun indicator_id => b.indicators.contains indicator_id)
    (fun p indicator_id =>
      { source_id := p.1, source_type := "Dimension",
        target_id := indicator_id, target_type := "Indicator",
        relationship_type := "contains" })
    (fun p indicator_id =>
      let dimension_id := p.1
      s!"Dimension {dimension_id} references unknown indicator {indicator_id}")
    (b.relationships, [])
  ({ b with relationships := r.1 }, r.2)

/-- The reference carried by an indicator in the fourth pass: Python's
`if indicator.dimension:` skips both `None` and the empty string. -/
def dimensionRef (ind : Indicator) : List String :=
  match ind.dimension with
  | none => []
  | some d => if d == "" then [] else [d]

/-- `build_indicator_to_dimension_relationships`: for every indicator (values
of the map) with a truthy `dimension` field, emit a `part_of` edge when the
dimension exists, else log a warning.  The edge's source is `indicator.id`,
the field of the stored value. -/
def build_indicator_to_dimension_relationships (b : RelationshipBuilder) :
    RelationshipBuilder × List String :=
  let r := buildLoop b.indicators (fun p => dimensionRef p.2)
    (fun d => b.dimensions.contains d)
    (fun p d =>
      { source_id := p.2.id, source_type := "Indicator",
        target_id := d, target_type := "Dimension",
        relationship_type := "part_of" })
    (fun p d =>
      let indicator_id := p.2.id
      s!"Indicator {indicator_id} references unknown dimension {d}")
    (b.relationships, [])
  ({ b with relationships := r.1 }, r.2)

/-- `build_all_relationships`: run the four passes in order; warnings of the
four passes are collected in emission order. -/
def build_all_relationships (b : RelationshipBuilder) :
    RelationshipBuilder × List String :=
  let r1 := b.build_tool_to_indicator_relationships
  let r2 := r1.1.build_indicator_to_tool_relationships
  let r3 := r2.1.build_dimension_to_indicator_relationships
  let r4 := r3.1.build_indicator_to_dimension_relationships
  (r4.1, r1.2 ++ r2.2 ++ r3.2 ++ r4.2)

/-- `get_tools_for_indicator`: collect into a set the sources of `measures`
edges targeting the indicator, then resolve the ids that are still present in
the tool map.  The Python `set` is modelled as a first-occurrence-ordered
duplicate-free list. -/
def get_tools_for_indicator (b : RelationshipBuilder) (indicator_id : String) : List Tool :=
  let tool_ids := b.relationships.foldl (fun acc rel =>
    if rel.target_id == indicator_id && rel.relationship_type == "measures" then
      if acc.contains rel.source_id then acc else acc ++ [rel.source_id]
    else acc) []
  tool_ids.filterMap (fun tool_id => b.tools.find tool_id)

/-- One iteration of the `validate_relationships` loop: the six checks in
source order, each `continue`-ing with one error message; an edge passing all
six is counted. -/
def validateStep (b : RelationshipBuilder) (acc : Nat × List String)
    (rel : RelationshipEdge) : Nat × List String :=
  if rel.source_type == "Indicator" && !(b.indicators.contains rel.source_id) then
    let i := rel.source_id
    (acc.1, acc.2 ++ [s!"Relationship references unknown indicator {i}"])
  else if rel.source_type == "Tool" && !(b.tools.contains rel.source_id) then
    let i := rel.source_id
    (acc.1, acc.2 ++ [s!"Relationship references unknown tool {i}"])
  else if rel.source_type == "Dimension" && !(b.dimensions.contains rel.source_id) then
    let i := rel.source_id
    (acc.1, acc.2 ++ [s!"Relationship references unknown dimension {i}"])
  else if rel.target_type == "Indicator" && !(b.indicators.contains rel.target_id) then
    let i := rel.target_id
    (acc.1, acc.2 ++ [s!"Relationship references unknown indicator {i}"])
  else if rel.target_type == "Tool" && !(b.tools.contains rel.target_id) then
    let i := rel.target_id
    (acc.1, acc.2 ++ [s!"Relationship references unknown tool {i}"])
  else if rel.target_type == "Dimension" && !(b.dimensions.contains rel.target_id) then
    let i := rel.target_id
    (acc.1, acc.2 ++ [s!"Relationship references unknown dimension {i}"])
  else (acc.1 + 1, acc.2)

/-- `validate_relationships`: returns `(valid_count, errors)`. -/
def validate_relationships (b : RelationshipBuilder) : Nat × List String :=
  b.relationships.foldl (b.validateStep) (0, [])

end RelationshipBuilder

/-- The `statistics` block of `export_graph`. -/
structure GraphStatistics where
  total_indicators : Nat
  total_tools : Nat
  total_dimensions : Nat
  total_relationships : Nat
deriving DecidableEq

/-- The dictionary returned by `export_graph` (`model_dump` serialization is
the identity at this level of modelling). -/
structure RelationshipGraphExport where
  node_indicators : AssocMap Indicator
  node_tools : AssocMap Tool
  node_dimensions : AssocMap Dimension
  edges : List RelationshipEdge
  statistics : GraphStatistics
deriving DecidableEq

namespace RelationshipBuilder

/-- `export_graph`: serialize the three node maps, the edge list, and the four
aggregate counts. -/
def export_graph (b : RelationshipBuilder) : RelationshipGraphExport :=
  { node_indicators := b.indicators
    node_tools := b.tools
    node_dimensions := b.dimensions
    edges := b.relationships
    statistics :=
      { total_indicators := b.indicators.length
        total_tools := b.tools.length
        total_dimensions := b.dimensions.length
        total_relationships := b.relationships.length } }

/-- `export_graph` seen as a method call on the builder: it returns the export
dictionary together with the builder state as it is after the call (the method
only reads state). -/
def export_graph_call (b : RelationshipBuilder) :
    RelationshipGraphExport × RelationshipBuilder :=
  (b.export_graph, b)

end RelationshipBuilder

/-- `scripts/validate.py` — `valid_rings = {"adopt", "trial", "assess", "hold"}`. -/
def valid_rings : List String := ["adopt", "trial", "assess", "hold"]

/-- Python `str.lower()`, modelled as a character-wise map on the underlying
character list (ASCII case folding, which covers the ring vocabulary). -/
def pyLower (s : String) : String := String.mk (s.data.map Char.toLower)

/-- `scripts/validate.py` — `validate_tool`: required-field checks on `id` and
`name` (Python truthiness: the empty string fails), then the case-insensitive
ring check, skipped when `ring` is `None` or empty. -/
def validate_tool (tool : Tool) : Bool × List String :=
  let errors : List String := []
  let errors := if tool.id == "" then errors ++ ["Tool missing required field: id"] else errors
  let errors := if tool.name == "" then errors ++ ["Tool missing required field: name"] else errors
  let errors :=
    match tool.ring with
    | none => errors
    | some r =>
      if r == "" then errors
      else if valid_rings.contains (pyLower r) then errors
      else
        errors ++ [s!"Tool has invalid ring: {r}"]
  (errors.length == 0, errors)

/-! ### Closed forms of the build passes -/

/-- Edges produced by one pass: for every item, the resolving references in
order, mapped to edges. -/
def passEdges (items : List α) (refs : α → List String) (ok : String → Bool)
    (mk : α → String → RelationshipEdge) : List RelationshipEdge :=
  items.flatMap (fun a => ((refs a).filter ok).map (mk a))

/-- Warnings produced by one pass: one line per dangling reference. -/
def passWarnings (items : List α) (refs : α → List String) (ok : String → Bool)
    (warn : α → String → String) : List String :=
  items.flatMap (fun a => ((refs a).filter (fun r => !(ok r))).map (warn a))

theorem buildLoop_inner (ok : String → Bool) (mk : α → String → RelationshipEdge)
    (warn : α → String → String) (a : α) (l : List String)
    (es : List RelationshipEdge) (ws : List String) :
    l.foldl (fun acc r =>
        if ok r then (acc.1 ++ [mk a r], acc.2) else (acc.1, acc.2 ++ [warn a r])) (es, ws)
      = (es ++ ((l.filter ok).map (mk a)),
         ws ++ ((l.filter (fun r => !(ok r))).map (warn a))) := by
  induction l generalizing es ws with
  | nil => simp
  | cons r l ih =>
    by_cases h : ok r = true <;>
      simp [List.foldl_cons, List.filter_cons, h, ih]

theorem buildLoop_eq (items : List α) (refs : α → List String) (ok : String → Bool)
    (mk : α → String → RelationshipEdge) (warn : α → String → String)
    (es : List RelationshipEdge) (ws : List String) :
    buildLoop items refs ok mk warn (es, ws)
      = (es ++ passEdges items refs ok mk, ws ++ passWarnings items refs ok warn) := by
  induction items generalizing es ws with
  | nil => simp [buildLoop, passEdges, passWarnings]
  | cons a items ih =>
    simp only [buildLoop, List.foldl_cons] at ih ⊢
    rw [buildLoop_inner, ih]
    simp [passEdges, passWarnings]

/-- Pass 1 closed form: `measures` edges from the tool map. -/
def toolIndicatorEdges (tools : AssocMap Tool) (indicators : AssocMap Indicator) :
    List RelationshipEdge :=
  passEdges tools (fun p => p.2.related_indicators)
    (fun indicator_id => indicators.contains indicator_id)
    (fun p indicator_id =>
      { source_id := p.1, source_type := "Tool",
        target_id := indicator_id, target_type := "Indicator",
        relationship_type := "measures" })

/-- Pass 1 closed form: warnings for dangling indicator references. -/
def toolIndicatorWarnings (tools : AssocMap Tool) (indicators : AssocMap Indicator) :
    List String :=
  passWarnings tools (fun p => p.2.related_indicators)
    (fun indicator_id => indicators.contains indicator_id)
    (fun p indicator_id =>
      let tool_id := p.1
      s!"Tool {tool_id} references unknown indicator {indicator_id}")

/-- Pass 2 closed form: `measured_by` edges from the indicator map. -/
def indicatorToolEdges (indicators : AssocMap Indicator) (tools : AssocMap Tool) :
    List RelationshipEdge :=
  passEdges indicators (fun p => p.2.related_tools)
    (fun tool_id => tools.contains tool_id)
    (fun p tool_id =>
      { source_id := p.1, source_type := "Indicator",
        target_id := tool_id, target_type := "Tool",
        relationship_type := "measured_by" })

/-- Pass 2 closed form: warnings for dangling tool references. -/
def indicatorToolWarnings (indicators : AssocMap Indicator) (tools : AssocMap Tool) :
    List String :=
  passWarnings indicators (fun p => p.2.related_tools)
    (fun tool_id => tools.contains tool_id)
    (fun p tool_id =>
      let indicator_id := p.1
      s!"Indicator {indicator_id} references unknown tool {tool_id}")

/-- Pass 3 closed form: `contains` edges from the dimension map. -/
def dimensionIndicatorEdges (dimensions : AssocMap Dimension) (indicators : AssocMap Indicator) :
    List RelationshipEdge :=
  passEdges dimensions (fun p => p.2.indicators)
    (fun indicator_id => indicators.contains indicator_id)
    (fun p indicator_id =>
      { source_id := p.1, source_type := "Dimension",
        target_id := indicator_id, target_type := "Indicator",
        relationship_type := "contains" })

/-- Pass 3 closed form: warnings for dangling indicator references. -/
def dimensionIndicatorWarnings (dimensions : AssocMap Dimension) (indicators : AssocMap Indicator) :
    List String :=
  passWarnings dimensions (fun p => p.2.indicators)
    (fun indicator_id => indicators.contains indicator_id)
    (fun p indicator_id =>
      let dimension_id := p.1
      s!"Dimension {dimension_id} references unknown indicator {indicator_id}")

/-- Pass 4 closed form: `part_of` edges from the indicator map. -/
def indicatorDimensionEdges (indicators : AssocMap Indicator) (dimensions : AssocMap Dimension) :
    List RelationshipEdge :=
  passEdges indicators (fun p => RelationshipBuilder.dimensionRef p.2)
    (fun d => dimensions.contains d)
    (fun p d =>
      { source_id := p.2.id, source_type := "Indicator",
        target_id := d, target_type := "Dimension",
        relationship_type := "part_of" })

/-- Pass 4 closed form: warnings for dangling dimension references. -/
def indicatorDimensionWarnings (indicators : AssocMap Indicator) (dimensions : AssocMap Dimension) :
    List String :=
  passWarnings indicators (fun p => RelationshipBuilder.dimensionRef p.2)
    (fun d => dimensions.contains d)
    (fun p d =>
      let indicator_id := p.2.id
      s!"Indicator {indicator_id} references unknown dimension {d}")

theorem build_tool_to_indicator_eq (b : RelationshipBuilder) :
    b.build_tool_to_indicator_relationships =
      ({ b with relationships := b.relationships ++ toolIndicatorEdges b.tools b.indicators },
       toolIndicatorWarnings b.tools b.indicators) := by
  simp [RelationshipBuilder.build_tool_to_indicator_relationships, buildLoop_eq,
    toolIndicatorEdges, toolIndicatorWarnings]

theorem build_indicator_to_tool_eq (b : RelationshipBuilder) :
    b.build_indicator_to_tool_relationships =
      ({ b with relationships := b.relationships ++ indicatorToolEdges b.indicators b.tools },
       indicatorToolWarnings b.indicators b.tools) := by
  simp [RelationshipBuilder.build_indicator_to_tool_relationships, buildLoop_eq,
    indicatorToolEdges, indicatorToolWarnings]

theorem build_dimension_to_indicator_eq (b : RelationshipBuilder) :
    b.build_dimension_to_indicator_relationships =
      ({ b with relationships := b.relationships ++ dimensionIndicatorEdges b.dimensions b.indicators },
       dimensionIndicatorWarnings b.dimensions b.indicators) := by
  simp [RelationshipBuilder.build_dimension_to_indicator_relationships, buildLoop_eq,
    dimensionIndicatorEdges, dimensionIndicatorWarnings]

theorem build_indicator_to_dimension_eq (b : RelationshipBuilder) :
    b.build_indicator_to_dimension_relationships =
      ({ b with relationships := b.relationships ++ indicatorDimensionEdges b.indicators b.dimensions },
       indicatorDimensionWarnings b.indicators b.dimensions) := by
  simp [RelationshipBuilder.build_indicator_to_dimension_relationships, buildLoop_eq,
    indicatorDimensionEdges, indicatorDimensionWarnings]

/-- All edges derived in one `build_all_relationships` call, as a function of
the three entity maps alone. -/
def derivedEdges (indicators : AssocMap Indicator) (tools : AssocMap Tool)
    (dimensions : AssocMap Dimension) : List RelationshipEdge :=
  toolIndicatorEdges tools indicators ++ indicatorToolEdges indicators tools
    ++ dimensionIndicatorEdges dimensions indicators
    ++ indicatorDimensionEdges indicators dimensions

/-- All warnings logged by one `build_all_relationships` call. -/
def derivedWarnings (indicators : AssocMap Indicator) (tools : AssocMap Tool)
    (dimensions : AssocMap Dimension) : List String :=
  toolIndicatorWarnings tools indicators ++ indicatorToolWarnings indicators tools
    ++ dimensionIndicatorWarnings dimensions indicators
    ++ indicatorDimensionWarnings indicators dimensions

theorem build_all_eq (b : RelationshipBuilder) :
    b.build_all_relationships =
      ({ b with relationships :=
          b.relationships ++ derivedEdges b.indicators b.tools b.dimensions },
       derivedWarnings b.indicators b.tools b.dimensions) := by
  simp [RelationshipBuilder.build_all_relationships, build_tool_to_indicator_eq,
    build_indicator_to_tool_eq, build_dimension_to_indicator_eq,
    build_indicator_to_dimension_eq, derivedEdges, derivedWarnings, List.append_assoc]

/-! ### Per-edge characterization of `validate_relationships` -/

/-- The error message `validate_relationships` records for an edge, if any:
the three source checks in order, then the three target checks, first failing
check wins (`continue` in the source). -/
def edgeError (b : RelationshipBuilder) (rel : RelationshipEdge) : Option String :=
  if rel.source_type == "Indicator" && !(b.indicators.contains rel.source_id) then
    let i := rel.source_id
    some s!"Relationship references unknown indicator {i}"
  else if rel.source_type == "Tool" && !(b.tools.contains rel.source_id) then
    let i := rel.source_id
    some s!"Relationship references unknown tool {i}"
  else if rel.source_type == "Dimension" && !(b.dimensions.contains rel.source_id) then
    let i := rel.source_id
    some s!"Relationship references unknown dimension {i}"
  else if rel.target_type == "Indicator" && !(b.indicators.contains rel.target_id) then
    let i := rel.target_id
    some s!"Relationship references unknown indicator {i}"
  else if rel.target_type == "Tool" && !(b.tools.contains rel.target_id) then
    let i := rel.target_id
    some s!"Relationship references unknown tool {i}"
  else if rel.target_type == "Dimension" && !(b.dimensions.contains rel.target_id) then
    let i := rel.target_id
    some s!"Relationship references unknown dimension {i}"
  else none

theorem validateStep_eq (b : RelationshipBuilder) (acc : Nat × List String)
    (rel : RelationshipEdge) :
    b.validateStep acc rel =
      match edgeError b rel with
      | some e => (acc.1, acc.2 ++ [e])
      | none => (acc.1 + 1, acc.2) := by
  simp only [RelationshipBuilder.validateStep, edgeError]
  split_ifs <;> rfl

theorem validate_foldl (b : RelationshipBuilder) (l : List RelationshipEdge)
    (n : Nat) (es : List String) :
    l.foldl (b.validateStep) (n, es) =
      (n + (l.filter (fun e => (edgeError b e).isNone)).length,
       es ++ l.filterMap (edgeError b)) := by
  induction l generalizing n es with
  | nil => simp
  | cons e l ih =>
    rw [List.foldl_cons, validateStep_eq]
    cases h : edgeError b e with
    | some msg =>
      simp [ih, List.filter_cons, List.filterMap_cons, h]
    | none =>
      simp [ih, List.filter_cons, List.filterMap_cons, h, Nat.add_assoc, Nat.add_comm]

/-- `validate_relationships` counts the edges without an error and returns the
errors of the offending edges in edge order. -/
theorem validate_relationships_eq (b : RelationshipBuilder) :
    b.validate_relationships =
      ((b.relationships.filter (fun e => (edgeError b e).isNone)).length,
       b.relationships.filterMap (edgeError b)) := by
  simpa using validate_foldl b b.relationships 0 []

/-! ### Counting helpers -/

theorem length_filter_add_length_filter_not (p : α → Bool) (l : List α) :
    (l.filter p).length + (l.filter (fun a => !(p a))).length = l.length := by
  induction l with
  | nil => rfl
  | cons a l ih =>
    by_cases h : p a = true <;> simp [List.filter_cons, h] <;> omega

/-- Every reference scanned by a pass produces exactly one of: an edge, or a
warning line. -/
theorem passEdges_length_add_passWarnings_length (items : List α)
    (refs : α → List String) (ok : String → Bool)
    (mk : α → String → RelationshipEdge) (warn : α → String → String) :
    (passEdges items refs ok mk).length + (passWarnings items refs ok warn).length
      = (items.map (fun a => (refs a).length)).sum := by
  simp only [passEdges, passWarnings, List.length_flatMap]
  rw [← List.sum_map_add]
  refine congrArg List.sum (List.map_congr_left (fun a _ => ?_))
  simp only [Function.comp_apply, List.length_map]
  exact length_filter_add_length_filter_not ok (refs a)

/-- The total number of outgoing references scanned by the four passes. -/
def referenceTotal (indicators : AssocMap Indicator) (tools : AssocMap Tool)
    (dimensions : AssocMap Dimension) : Nat :=
  (tools.map (fun p => p.2.related_indicators.length)).sum
    + (indicators.map (fun p => p.2.related_tools.length)).sum
    + (dimensions.map (fun p => p.2.indicators.length)).sum
    + (indicators.map (fun p => (RelationshipBuilder.dimensionRef p.2).length)).sum

theorem toolIndicator_length_add (tools : AssocMap Tool) (indicators : AssocMap Indicator) :
    (toolIndicatorEdges tools indicators).length + (toolIndicatorWarnings tools indicators).length
      = (tools.map (fun p => p.2.related_indicators.length)).sum :=
  passEdges_length_add_passWarnings_length ..

theorem indicatorTool_length_add (indicators : AssocMap Indicator) (tools : AssocMap Tool) :
    (indicatorToolEdges indicators tools).length + (indicatorToolWarnings indicators tools).length
      = (indicators.map (fun p => p.2.related_tools.length)).sum :=
  passEdges_length_add_passWarnings_length ..

theorem dimensionIndicator_length_add (dimensions : AssocMap Dimension)
    (indicators : AssocMap Indicator) :
    (dimensionIndicatorEdges dimensions indicators).length
        + (dimensionIndicatorWarnings dimensions indicators).length
      = (dimensions.map (fun p => p.2.indicators.length)).sum :=
  passEdges_length_add_passWarnings_length ..

theorem indicatorDimension_length_add (indicators : AssocMap Indicator)
    (dimensions : AssocMap Dimension) :
    (indicatorDimensionEdges indicators dimensions).length
        + (indicatorDimensionWarnings indicators dimensions).length
      = (indicators.map (fun p => (RelationshipBuilder.dimensionRef p.2).length)).sum :=
  passEdges_length_add_passWarnings_length ..

/-! ### Claim theorems -/

/-- C8: a dangling reference never aborts a build: `build_all_relationships`
always returns, appending the derived edges of all four passes to the stored
edge list and returning the warning log; each scanned reference contributes
exactly one of an edge (when it resolves) or a warning line (when dangling),
so the edge count plus the warning count equals the total reference count. -/
theorem build_all_dangling_accounting (b : RelationshipBuilder) :
    (b.build_all_relationships).1.relationships
        = b.relationships ++ derivedEdges b.indicators b.tools b.dimensions
  ∧ (b.build_all_relationships).2 = derivedWarnings b.indicators b.tools b.dimensions
  ∧ (derivedEdges b.indicators b.tools b.dimensions).length
        + (derivedWarnings b.indicators b.tools b.dimensions).length
        = referenceTotal b.indicators b.tools b.dimensions := by
  refine ⟨by rw [build_all_eq], by rw [build_all_eq], ?_⟩
  have h1 := toolIndicator_length_add b.tools b.indicators
  have h2 := indicatorTool_length_add b.indicators b.tools
  have h3 := dimensionIndicator_length_add b.dimensions b.indicators
  have h4 := indicatorDimension_length_add b.indicators b.dimensions
  simp only [derivedEdges, derivedWarnings, referenceTotal, List.length_append]
  omega

/-- C9: `export_graph` is a read-only projection: any number of calls leaves
the builder state unchanged, and the returned statistics are the sizes of the
three entity maps and the length of the edge list at export time. -/
theorem export_graph_read_only (b : RelationshipBuilder) :
    (∀ n : Nat, (fun s : RelationshipBuilder => s.export_graph_call.2)^[n] b = b)
  ∧ b.export_graph_call.2 = b
  ∧ b.export_graph_call.1.statistics.total_relationships = b.relationships.length
  ∧ b.export_graph_call.1.statistics.total_indicators = b.indicators.length
  ∧ b.export_graph_call.1.statistics.total_tools = b.tools.length
  ∧ b.export_graph_call.1.statistics.total_dimensions = b.dimensions.length
  ∧ b.export_graph_call.1.edges = b.relationships := by
  refine ⟨fun n => ?_, rfl, rfl, rfl, rfl, rfl, rfl⟩
  have h : (fun s : RelationshipBuilder => s.export_graph_call.2) = id := rfl
  rw [h, Function.iterate_id, id]

/-- The `license` indicator of the specification's build scenario. -/
def licenseIndicator : Indicator :=
  { id := "license", name := "License", dimension := some "legal" }

/-- The `howfairis` tool of the specification's build scenario. -/
def howfairisTool : Tool :=
  { id := "howfairis", name := "howfairis", related_indicators := ["license"] }

/-- The `legal` dimension of the specification's build scenario. -/
def legalDimension : Dimension :=
  { id := "legal", name := "Legal", indicators := ["license"] }

/-- The specification's scenario: a fresh builder given exactly the three
entities above through the three ingestion operations. -/
def scenarioBuilder : RelationshipBuilder :=
  (((RelationshipBuilder.mk [] [] [] []).add_indicators
      [licenseIndicator]).add_tools [howfairisTool]).add_dimensions [legalDimension]

/-- C5: on the scenario builder, `build_all_relationships` produces exactly
the three edges `measures`, `contains`, `part_of` (in pass order) and no
`measured_by` edge. -/
theorem scenario_three_edges :
    (scenarioBuilder.build_all_relationships).1.relationships =
      [{ source_id := "howfairis", source_type := "Tool", target_id := "license",
         target_type := "Indicator", relationship_type := "measures" },
       { source_id := "legal", source_type := "Dimension", target_id := "license",
         target_type := "Indicator", relationship_type := "contains" },
       { source_id := "license", source_type := "Indicator", target_id := "legal",
         target_type := "Dimension", relationship_type := "part_of" }]
  ∧ (scenarioBuilder.build_all_relationships).1.relationships.length = 3
  ∧ ∀ e ∈ (scenarioBuilder.build_all_relationships).1.relationships,
      e.relationship_type ≠ "measured_by" := by
  refine ⟨by decide, by decide, by decide⟩

/-- C4: `build_all_relationships` is not idempotent: a second call on the
unchanged builder appends a second full set of derived edges, so starting from
an empty edge list the edge count doubles. -/
theorem build_all_not_idempotent (b : RelationshipBuilder)
    (h0 : b.relationships = []) :
    ((b.build_all_relationships).1.build_all_relationships).1.relationships
        = (b.build_all_relationships).1.relationships
            ++ derivedEdges b.indicators b.tools b.dimensions
  ∧ ((b.build_all_relationships).1.build_all_relationships).1.relationships.length
        = 2 * (b.build_all_relationships).1.relationships.length := by
  constructor
  · simp [build_all_eq]
  · simp [build_all_eq, h0, Nat.two_mul]

/-- Witness for C4 at the scenario builder. -/
theorem build_all_not_idempotent_witness :
    scenarioBuilder.relationships = [] ∧
      ((scenarioBuilder.build_all_relationships).1.build_all_relationships).1.relationships.length
        = 2 * (scenarioBuilder.build_all_relationships).1.relationships.length :=
  ⟨rfl, (build_all_not_idempotent scenarioBuilder rfl).2⟩

/-! ### Ingestion: last-write-wins semantics -/

theorem AssocMap.find_insert_self (m : AssocMap α) (k : String) (v : α) :
    (m.insert k v).find k = some v := by
  induction m with
  | nil => simp [AssocMap.insert, AssocMap.find]
  | cons p m ih =>
    by_cases h : p.1 = k
    · simp [AssocMap.insert, AssocMap.find, h]
    · simp [AssocMap.insert, AssocMap.find, h] at ih ⊢
      exact ih

theorem AssocMap.find_insert_ne (m : AssocMap α) (k k' : String) (v : α)
    (h : k' ≠ k) :
    (m.insert k v).find k' = m.find k' := by
  induction m with
  | nil => simp [AssocMap.insert, AssocMap.find, Ne.symm h]
  | cons p m ih =>
    by_cases hp : p.1 = k
    · simp [AssocMap.insert, AssocMap.find, hp, Ne.symm h]
    · by_cases hp' : p.1 = k'
      · simp [AssocMap.insert, AssocMap.find, hp, hp', h]
      · simp [AssocMap.insert, AssocMap.find, hp, hp'] at ih ⊢
        exact ih

theorem AssocMap.insert_insert_same (m : AssocMap α) (k : String) (v : α) :
    (m.insert k v).insert k v = m.insert k v := by
  induction m with
  | nil => simp [AssocMap.insert]
  | cons p m ih =>
    by_cases h : p.1 = k
    · simp [AssocMap.insert, h]
    · simp [AssocMap.insert, h, ih]

/-- General last-write-wins lookup after a bulk `add_indicators` call: the
last entity of the batch carrying the key wins, and absent any such entity the
previous binding is kept. -/
theorem add_indicators_find (b : RelationshipBuilder) (xs : List Indicator) (k : String) :
    (b.add_indicators xs).indicators.find k =
      match xs.reverse.find? (fun y => y.id == k) with
      | some y => some y
      | none => b.indicators.find k := by
  induction xs generalizing b with
  | nil => simp [RelationshipBuilder.add_indicators]
  | cons x xs ih =>
    have hx : b.add_indicators (x :: xs)
        = ({ b with indicators := b.indicators.insert x.id x }).add_indicators xs := by
      simp [RelationshipBuilder.add_indicators]
    rw [hx, ih]
    cases hfind : xs.reverse.find? (fun y => y.id == k) with
    | some y => simp [List.find?_append, hfind]
    | none =>
      by_cases hk : x.id = k
      · subst hk
        simp [List.find?_append, hfind, AssocMap.find_insert_self]
      · simp [List.find?_append, hfind, hk,
          AssocMap.find_insert_ne b.indicators x.id k x (Ne.symm hk)]

/-- C6: ingestion keys each entity by its id with last-write-wins semantics,
for all three entity kinds: a fresh add binds the id to the new entity,
re-adding the same entity is a no-op, other keys are untouched, and a bulk
add resolves each key to the last batch entity carrying it. -/
theorem add_entities_last_write_wins (b : RelationshipBuilder)
    (x : Indicator) (t : Tool) (d : Dimension) (k : String)
    (hx : k ≠ x.id) (ht : k ≠ t.id) (hd : k ≠ d.id) :
    ((b.add_indicators [x]).indicators.find x.id = some x
      ∧ (b.add_indicators [x]).add_indicators [x] = b.add_indicators [x]
      ∧ (b.add_indicators [x]).indicators.find k = b.indicators.find k)
  ∧ ((b.add_tools [t]).tools.find t.id = some t
      ∧ (b.add_tools [t]).add_tools [t] = b.add_tools [t]
      ∧ (b.add_tools [t]).tools.find k = b.tools.find k)
  ∧ ((b.add_dimensions [d]).dimensions.find d.id = some d
      ∧ (b.add_dimensions [d]).add_dimensions [d] = b.add_dimensions [d]
      ∧ (b.add_dimensions [d]).dimensions.find k = b.dimensions.find k)
  ∧ (∀ (xs : List Indicator) (q : String),
      (b.add_indicators xs).indicators.find q =
        match xs.reverse.find? (fun y => y.id == q) with
        | some y => some y
        | none => b.indicators.find q) := by
  refine ⟨⟨?_, ?_, ?_⟩, ⟨?_, ?_, ?_⟩, ⟨?_, ?_, ?_⟩, fun xs q => add_indicators_find b xs q⟩
  · simp [RelationshipBuilder.add_indicators, AssocMap.find_insert_self]
  · simp [RelationshipBuilder.add_indicators, AssocMap.insert_insert_same]
  · simp [RelationshipBuilder.add_indicators, AssocMap.find_insert_ne _ _ _ _ hx]
  · simp [RelationshipBuilder.add_tools, AssocMap.find_insert_self]
  · simp [RelationshipBuilder.add_tools, AssocMap.insert_insert_same]
  · simp [RelationshipBuilder.add_tools, AssocMap.find_insert_ne _ _ _ _ ht]
  · simp [RelationshipBuilder.add_dimensions, AssocMap.find_insert_self]
  · simp [RelationshipBuilder.add_dimensions, AssocMap.insert_insert_same]
  · simp [RelationshipBuilder.add_dimensions, AssocMap.find_insert_ne _ _ _ _ hd]

/-- Witness for C6 at concrete entities and an unrelated key. -/
theorem add_entities_last_write_wins_witness :
    (((RelationshipBuilder.mk [] [] [] []).add_indicators
        [licenseIndicator]).indicators.find licenseIndicator.id = some licenseIndicator) :=
  (add_entities_last_write_wins (RelationshipBuilder.mk [] [] [] [])
    licenseIndicator howfairisTool legalDimension "other"
    (by decide) (by decide) (by decide)).1.1

/-! ### Tool validation: the ring check -/

/-- C7: for a tool that meets the required-field checks (`id`/`name` non-empty,
as the ingestion contract guarantees) and carries a non-empty `ring`, the
validator flags it as invalid exactly when the lowercased ring is not one of
`adopt`, `trial`, `assess`, `hold`; the flagged tool gets exactly the one ring
error and is returned (not rejected) either way. -/
theorem validate_tool_ring_check (t : Tool) (r : String)
    (hring : t.ring = some r) (hr : r ≠ "") (hid : t.id ≠ "") (hname : t.name ≠ "") :
    ((validate_tool t).1 = false ↔ valid_rings.contains (pyLower r) = false)
  ∧ (valid_rings.contains (pyLower r) = false →
      (validate_tool t).2 = [s!"Tool has invalid ring: {r}"])
  ∧ (valid_rings.contains (pyLower r) = true → (validate_tool t).2 = []) := by
  by_cases h : pyLower r ∈ valid_rings
  · have hb : valid_rings.contains (pyLower r) = true := by simpa using h
    refine ⟨?_, ?_, fun _ => ?_⟩ <;>
      simp [validate_tool, hring, hr, hid, hname, hb, h]
  · have hb : valid_rings.contains (pyLower r) = false := by simpa using h
    refine ⟨?_, fun _ => ?_,
      fun h' => absurd (show pyLower r ∈ valid_rings by simpa using h') h⟩ <;>
      simp [validate_tool, hring, hr, hid, hname, hb, h]

/-- A tool carrying a ring value outside the allowed set. -/
def productionRingTool : Tool :=
  { id := "howfairis", name := "howfairis", ring := some "Production" }

/-- A tool carrying an allowed ring value in mixed case. -/
def adoptRingTool : Tool :=
  { id := "howfairis", name := "howfairis", ring := some "Adopt" }

/-- Witness for C7: the flagged-invalid case on a concrete tool with ring
value `Production`, and the accepted case on a case-insensitive `Adopt`. -/
theorem validate_tool_ring_check_witness :
    ((validate_tool productionRingTool).1 = false)
  ∧ ((validate_tool adoptRingTool).2 = []) := by
  constructor
  · exact (validate_tool_ring_check productionRingTool
      "Production" rfl (by decide) (by decide) (by decide)).1.mpr (by decide)
  · exact (validate_tool_ring_check adoptRingTool
      "Adopt" rfl (by decide) (by decide) (by decide)).2.2 (by decide)

/-! ### C1: the validator counts an edge iff both endpoints resolve -/

/-- The three entity-type names the validator knows. -/
def knownEntityType (ty : String) : Bool :=
  ty == "Indicator" || ty == "Tool" || ty == "Dimension"

/-- Resolution of an id in the mapping named by an entity type. -/
def resolvesIn (b : RelationshipBuilder) (ty i : String) : Bool :=
  if ty == "Indicator" then b.indicators.contains i
  else if ty == "Tool" then b.tools.contains i
  else if ty == "Dimension" then b.dimensions.contains i
  else false

/-- The error message the validator uses for an unresolved id of a given
entity type. -/
def unknownRefMsg (ty i : String) : String :=
  if ty == "Indicator" then s!"Relationship references unknown indicator {i}"
  else if ty == "Tool" then s!"Relationship references unknown tool {i}"
  else s!"Relationship references unknown dimension {i}"

/-- The claimed per-edge outcome: check the source first — a dangling source
suppresses the target check — then the target; a passing edge yields no
error. -/
def claimedEdgeError (b : RelationshipBuilder) (e : RelationshipEdge) : Option String :=
  if !(resolvesIn b e.source_type e.source_id) then
    some (unknownRefMsg e.source_type e.source_id)
  else if !(resolvesIn b e.target_type e.target_id) then
    some (unknownRefMsg e.target_type e.target_id)
  else none

theorem edgeError_eq_claimed (b : RelationshipBuilder) (e : RelationshipEdge)
    (hs : knownEntityType e.source_type = true)
    (ht : knownEntityType e.target_type = true) :
    edgeError b e = claimedEdgeError b e := by
  simp only [knownEntityType, Bool.or_eq_true, beq_iff_eq] at hs ht
  refine hs.elim (fun hs2 => hs2.elim (fun h => ?_) (fun h => ?_)) (fun h => ?_) <;>
    refine ht.elim (fun ht2 => ht2.elim (fun h' => ?_) (fun h' => ?_)) (fun h' => ?_) <;>
    simp [edgeError, claimedEdgeError, resolvesIn, unknownRefMsg, h, h']

theorem isNone_claimedEdgeError (b : RelationshipBuilder) (e : RelationshipEdge) :
    (claimedEdgeError b e).isNone
      = (resolvesIn b e.source_type e.source_id && resolvesIn b e.target_type e.target_id) := by
  cases hs : resolvesIn b e.source_type e.source_id <;>
    cases ht : resolvesIn b e.target_type e.target_id <;>
    simp [claimedEdgeError, hs, ht]

theorem length_filter_isNone_add_length_filterMap (f : α → Option β) (l : List α) :
    (l.filter (fun a => (f a).isNone)).length + (l.filterMap f).length = l.length := by
  induction l with
  | nil => rfl
  | cons a l ih =>
    cases h : f a <;> simp [List.filter_cons, List.filterMap_cons, h] <;> omega

/-- C1: over edges whose type tags are among the three known entity types (the
data model's invariant), `validate_relationships` counts an edge as valid
exactly when its source id resolves in the map named by its source type and
its target id resolves in the map named by its target type; each failing edge
contributes exactly one error string — the source error when the source
dangles (suppressing the target check), else the target error — and
`valid_count` plus the number of errors equals the number of stored edges. -/
theorem validate_relationships_spec (b : RelationshipBuilder)
    (h : ∀ e ∈ b.relationships,
        knownEntityType e.source_type = true ∧ knownEntityType e.target_type = true) :
    (b.validate_relationships).1
        = (b.relationships.filter (fun e =>
            resolvesIn b e.source_type e.source_id
              && resolvesIn b e.target_type e.target_id)).length
  ∧ (b.validate_relationships).2 = b.relationships.filterMap (claimedEdgeError b)
  ∧ (b.validate_relationships).1 + (b.validate_relationships).2.length
        = b.relationships.length := by
  have hcong : ∀ e ∈ b.relationships, edgeError b e = claimedEdgeError b e :=
    fun e he => edgeError_eq_claimed b e (h e he).1 (h e he).2
  have hfil : b.relationships.filter (fun e => (edgeError b e).isNone)
      = b.relationships.filter (fun e =>
          resolvesIn b e.source_type e.source_id
            && resolvesIn b e.target_type e.target_id) := by
    refine List.filter_congr (fun e he => ?_)
    rw [hcong e he, isNone_claimedEdgeError]
  have hmap : b.relationships.filterMap (edgeError b)
      = b.relationships.filterMap (claimedEdgeError b) := by
    refine List.filterMap_congr (fun e he => hcong e he)
  refine ⟨?_, ?_, ?_⟩
  · rw [validate_relationships_eq, hfil]
  · rw [validate_relationships_eq, hmap]
  · rw [validate_relationships_eq]
    exact length_filter_isNone_add_length_filterMap (edgeError b) b.relationships

/-- A builder with one resolving edge, one dangling-source edge and one
dangling-target edge, for exercising the validator. -/
def validateScenario : RelationshipBuilder :=
  { scenarioBuilder with relationships :=
      [{ source_id := "howfairis", source_type := "Tool", target_id := "license",
         target_type := "Indicator", relationship_type := "measures" },
       { source_id := "ghost", source_type := "Tool", target_id := "license",
         target_type := "Indicator", relationship_type := "measures" },
       { source_id := "legal", source_type := "Dimension", target_id := "missing",
         target_type := "Indicator", relationship_type := "contains" }] }

/-- Witness for C1 on `validateScenario`: one valid edge, two errors, and the
counts add up to the number of stored edges. -/
theorem validate_relationships_spec_witness :
    (validateScenario.validate_relationships).1
        = (validateScenario.relationships.filter (fun e =>
            resolvesIn validateScenario e.source_type e.source_id
              && resolvesIn validateScenario e.target_type e.target_id)).length
  ∧ (validateScenario.validate_relationships).1
        + (validateScenario.validate_relationships).2.length
        = validateScenario.relationships.length := by
  have h := validate_relationships_spec validateScenario (by decide)
  exact ⟨h.1, h.2.2⟩

/-! ### C10: a freshly built graph validates cleanly -/

theorem AssocMap.contains_of_mem (m : AssocMap α) (p : String × α) (h : p ∈ m) :
    m.contains p.1 = true := by
  simp only [AssocMap.contains, List.any_eq_true]
  exact ⟨p, h, by simp⟩

theorem mem_passEdges (items : List α) (refs : α → List String) (ok : String → Bool)
    (mk : α → String → RelationshipEdge) (e : RelationshipEdge) :
    e ∈ passEdges items refs ok mk
      ↔ ∃ a ∈ items, ∃ r ∈ refs a, ok r = true ∧ e = mk a r := by
  constructor
  · intro h
    obtain ⟨a, ha, h2⟩ := List.mem_flatMap.mp h
    obtain ⟨r, hr, he⟩ := List.mem_map.mp h2
    obtain ⟨hr1, hr2⟩ := List.mem_filter.mp hr
    exact ⟨a, ha, r, hr1, hr2, he.symm⟩
  · intro h
    obtain ⟨a, ha, r, hr, hok, he⟩ := h
    exact List.mem_flatMap.mpr
      ⟨a, ha, List.mem_map.mpr ⟨r, List.mem_filter.mpr ⟨hr, hok⟩, he.symm⟩⟩

/-- `edgeError` ignores the stored edge list. -/
theorem edgeError_set_relationships (b : RelationshipBuilder)
    (X : List RelationshipEdge) (e : RelationshipEdge) :
    edgeError { b with relationships := X } e = edgeError b e := rfl

theorem edgeError_none_toolIndicator (b : RelationshipBuilder) (e : RelationshipEdge)
    (h : e ∈ toolIndicatorEdges b.tools b.indicators) : edgeError b e = none := by
  obtain ⟨p, hp, r, hr, hok, he⟩ := (mem_passEdges _ _ _ _ e).mp h
  subst he
  have h1 : b.tools.contains p.1 = true := AssocMap.contains_of_mem _ _ hp
  simp [edgeError, h1, hok]

theorem edgeError_none_indicatorTool (b : RelationshipBuilder) (e : RelationshipEdge)
    (h : e ∈ indicatorToolEdges b.indicators b.tools) : edgeError b e = none := by
  obtain ⟨p, hp, r, hr, hok, he⟩ := (mem_passEdges _ _ _ _ e).mp h
  subst he
  have h1 : b.indicators.contains p.1 = true := AssocMap.contains_of_mem _ _ hp
  simp [edgeError, h1, hok]

theorem edgeError_none_dimensionIndicator (b : RelationshipBuilder) (e : RelationshipEdge)
    (h : e ∈ dimensionIndicatorEdges b.dimensions b.indicators) : edgeError b e = none := by
  obtain ⟨p, hp, r, hr, hok, he⟩ := (mem_passEdges _ _ _ _ e).mp h
  subst he
  have h1 : b.dimensions.contains p.1 = true := AssocMap.contains_of_mem _ _ hp
  simp [edgeError, h1, hok]

theorem edgeError_none_indicatorDimension (b : RelationshipBuilder) (e : RelationshipEdge)
    (hids : ∀ p ∈ b.indicators, (p.2).id = p.1)
    (h : e ∈ indicatorDimensionEdges b.indicators b.dimensions) : edgeError b e = none := by
  obtain ⟨p, hp, r, hr, hok, he⟩ := (mem_passEdges _ _ _ _ e).mp h
  subst he
  have h1 : b.indicators.contains p.2.id = true := by
    rw [hids p hp]; exact AssocMap.contains_of_mem _ _ hp
  simp [edgeError, h1, hok]

/-- Every edge derived from the current maps passes the validator's checks. -/
theorem edgeError_none_of_derived (b : RelationshipBuilder) (e : RelationshipEdge)
    (hids : ∀ p ∈ b.indicators, (p.2).id = p.1)
    (h : e ∈ derivedEdges b.indicators b.tools b.dimensions) : edgeError b e = none := by
  unfold derivedEdges at h
  rcases List.mem_append.mp h with h | h4
  · rcases List.mem_append.mp h with h | h3
    · rcases List.mem_append.mp h with h1 | h2
      · exact edgeError_none_toolIndicator b e h1
      · exact edgeError_none_indicatorTool b e h2
    · exact edgeError_none_dimensionIndicator b e h3
  · exact edgeError_none_indicatorDimension b e hids h4

/-- C10: on a builder whose edge list was produced by one
`build_all_relationships` call over the current maps (empty edge list before
the call, indicator values keyed by their own id, as ingestion guarantees),
`validate_relationships` counts every stored edge as valid and reports no
errors. -/
theorem build_then_validate_clean (b : RelationshipBuilder)
    (h0 : b.relationships = [])
    (hids : ∀ p ∈ b.indicators, (p.2).id = p.1) :
    (b.build_all_relationships).1.validate_relationships
      = ((b.build_all_relationships).1.relationships.length, []) := by
  have hB : (b.build_all_relationships).1
      = { b with relationships := derivedEdges b.indicators b.tools b.dimensions } := by
    rw [build_all_eq, h0]
    rfl
  have hall : ∀ e ∈ derivedEdges b.indicators b.tools b.dimensions, edgeError b e = none :=
    fun e he => edgeError_none_of_derived b e hids he
  have h1 : (derivedEdges b.indicators b.tools b.dimensions).filter
      (fun e => (edgeError b e).isNone) = derivedEdges b.indicators b.tools b.dimensions :=
    List.filter_eq_self.mpr (fun e he => by simp [hall e he])
  have h2 : (derivedEdges b.indicators b.tools b.dimensions).filterMap (edgeError b) = [] :=
    List.filterMap_eq_nil_iff.mpr hall
  rw [hB, validate_relationships_eq]
  show (((derivedEdges b.indicators b.tools b.dimensions).filter
        (fun e => (edgeError b e).isNone)).length,
      (derivedEdges b.indicators b.tools b.dimensions).filterMap (edgeError b))
    = ((derivedEdges b.indicators b.tools b.dimensions).length, [])
  rw [h1, h2]

/-- Witness for C10 at the scenario builder: three edges, all valid, no
errors. -/
theorem build_then_validate_clean_witness :
    (scenarioBuilder.build_all_relationships).1.validate_relationships
      = ((scenarioBuilder.build_all_relationships).1.relationships.length, []) :=
  build_then_validate_clean scenarioBuilder rfl (by decide)

/-! ### C2: multiplicity of derived `measures` edges -/

/-- The `measures` edge emitted by the first pass for a tool key and an
indicator id. -/
def measuresEdge (tool_id indicator_id : String) : RelationshipEdge :=
  { source_id := tool_id, source_type := "Tool",
    target_id := indicator_id, target_type := "Indicator",
    relationship_type := "measures" }

theorem beq_measuresEdge (tid i iid : String) :
    (measuresEdge tid i == measuresEdge tid iid) = (i == iid) := by
  rcases eq_or_ne i iid with h | h
  · subst h; simp
  · have hA : (measuresEdge tid i == measuresEdge tid iid) = false := by
      simp [measuresEdge, h]
    have hB : (i == iid) = false := by simp [h]
    rw [hA, hB]

theorem count_measures_indicatorTool (ind : AssocMap Indicator) (tools : AssocMap Tool)
    (tid iid : String) :
    (indicatorToolEdges ind tools).count (measuresEdge tid iid) = 0 := by
  rw [List.count_eq_zero]
  intro hmem
  obtain ⟨p, hp, r, hr, hok, he⟩ := (mem_passEdges _ _ _ _ _).mp hmem
  have := congrArg RelationshipEdge.relationship_type he
  simp [measuresEdge] at this

theorem count_measures_dimensionIndicator (dims : AssocMap Dimension)
    (ind : AssocMap Indicator) (tid iid : String) :
    (dimensionIndicatorEdges dims ind).count (measuresEdge tid iid) = 0 := by
  rw [List.count_eq_zero]
  intro hmem
  obtain ⟨p, hp, r, hr, hok, he⟩ := (mem_passEdges _ _ _ _ _).mp hmem
  have := congrArg RelationshipEdge.relationship_type he
  simp [measuresEdge] at this

theorem count_measures_indicatorDimension (ind : AssocMap Indicator)
    (dims : AssocMap Dimension) (tid iid : String) :
    (indicatorDimensionEdges ind dims).count (measuresEdge tid iid) = 0 := by
  rw [List.count_eq_zero]
  intro hmem
  obtain ⟨p, hp, r, hr, hok, he⟩ := (mem_passEdges _ _ _ _ _).mp hmem
  have := congrArg RelationshipEdge.relationship_type he
  simp [measuresEdge] at this

theorem count_measures_toolIndicator_notkey (tools : AssocMap Tool)
    (ind : AssocMap Indicator) (tid iid : String)
    (h : tid ∉ tools.map Prod.fst) :
    (toolIndicatorEdges tools ind).count (measuresEdge tid iid) = 0 := by
  rw [List.count_eq_zero]
  intro hmem
  obtain ⟨p, hp, r, hr, hok, he⟩ := (mem_passEdges _ _ _ _ _).mp hmem
  have hsrc := congrArg RelationshipEdge.source_id he
  simp [measuresEdge] at hsrc
  exact h (hsrc ▸ List.mem_map_of_mem Prod.fst hp)

theorem count_measures_toolIndicator (tools : AssocMap Tool) (ind : AssocMap Indicator)
    (tid iid : String) (t : Tool)
    (hk : (tools.map Prod.fst).Nodup)
    (ht : AssocMap.find tools tid = some t)
    (hi : AssocMap.contains ind iid = true) :
    (toolIndicatorEdges tools ind).count (measuresEdge tid iid)
      = t.related_indicators.count iid := by
  induction tools with
  | nil => simp [AssocMap.find] at ht
  | cons p rest ih =>
    have hsplit : toolIndicatorEdges (p :: rest) ind
        = ((p.2.related_indicators.filter (fun i => ind.contains i)).map
            (fun i => measuresEdge p.1 i))
          ++ toolIndicatorEdges rest ind := by
      simp [toolIndicatorEdges, passEdges, measuresEdge]
    have hkc : p.1 ∉ rest.map Prod.fst ∧ (rest.map Prod.fst).Nodup := by
      rw [List.map_cons] at hk
      exact List.nodup_cons.mp hk
    have hk1 : p.1 ∉ rest.map Prod.fst := hkc.1
    have hk2 : (rest.map Prod.fst).Nodup := hkc.2
    by_cases hp : p.1 = tid
    · have ht' : p.2 = t := by
        simp [AssocMap.find, hp] at ht
        exact ht
      have hhead : ((p.2.related_indicators.filter (fun i => ind.contains i)).map
            (fun i => measuresEdge p.1 i)).count (measuresEdge tid iid)
          = t.related_indicators.count iid := by
        rw [List.count_eq_countP, List.countP_map]
        have : ∀ i, ((fun x => x == measuresEdge tid iid) ∘ (fun i => measuresEdge p.1 i)) i
            = (i == iid) := by
          intro i
          simp only [Function.comp_apply, hp]
          exact beq_measuresEdge tid i iid
        rw [List.countP_congr (fun i _ => by rw [this i]), ht']
        rw [← List.count_eq_countP]
        exact List.count_filter (by simpa using hi)
      have hrest : (toolIndicatorEdges rest ind).count (measuresEdge tid iid) = 0 :=
        count_measures_toolIndicator_notkey rest ind tid iid (hp ▸ hk1)
      rw [hsplit, List.count_append, hhead, hrest]
      omega
    · have ht2 : AssocMap.find rest tid = some t := by
        simpa [AssocMap.find, hp] using ht
      have hhead : ((p.2.related_indicators.filter (fun i => ind.contains i)).map
            (fun i => measuresEdge p.1 i)).count (measuresEdge tid iid) = 0 := by
        rw [List.count_eq_zero]
        intro hmem
        obtain ⟨r, hr, he⟩ := List.mem_map.mp hmem
        have := congrArg RelationshipEdge.source_id he
        simp [measuresEdge] at this
        exact hp this
      rw [hsplit, List.count_append, hhead, ih hk2 ht2]
      omega

/-- C2: after one `build_all_relationships` call on a fresh edge list, the
`measures` edge from tool key `tid` to indicator `iid` occurs exactly as many
times as `iid` occurs in that tool's `related_indicators` list — duplicates in
the source list produce duplicate edges, with no deduplication at derivation
time (requires `iid` present in the indicator map and distinct tool keys, as
ingestion guarantees). -/
theorem measures_edge_multiplicity (b : RelationshipBuilder) (tid iid : String) (t : Tool)
    (hk : (b.tools.map Prod.fst).Nodup)
    (ht : b.tools.find tid = some t)
    (hi : b.indicators.contains iid = true)
    (h0 : b.relationships = []) :
    ((b.build_all_relationships).1.relationships).count (measuresEdge tid iid)
      = t.related_indicators.count iid := by
  have hB : (b.build_all_relationships).1.relationships
      = derivedEdges b.indicators b.tools b.dimensions := by
    rw [build_all_eq, h0]
    rfl
  rw [hB]
  unfold derivedEdges
  rw [List.count_append, List.count_append, List.count_append,
    count_measures_toolIndicator b.tools b.indicators tid iid t hk ht hi,
    count_measures_indicatorTool, count_measures_dimensionIndicator,
    count_measures_indicatorDimension]
  omega

/-- A tool listing the same indicator twice. -/
def duplicatingTool : Tool :=
  { id := "dup-tool", name := "Dup", related_indicators := ["license", "license"] }

/-- A builder holding the `license` indicator and the duplicate-listing tool. -/
def duplicateScenario : RelationshipBuilder :=
  ((RelationshipBuilder.mk [] [] [] []).add_indicators
    [licenseIndicator]).add_tools [duplicatingTool]

/-- Witness for C2: the duplicated reference yields the `measures` edge
twice. -/
theorem measures_edge_multiplicity_witness :
    ((duplicateScenario.build_all_relationships).1.relationships).count
        (measuresEdge "dup-tool" "license")
      = duplicatingTool.related_indicators.count "license" :=
  measures_edge_multiplicity duplicateScenario "dup-tool" "license" duplicatingTool
    (by decide) (by decide) (by decide) rfl

/-! ### C3: the `measures` query view deduplicates and drops ghosts -/

/-- The set-accumulation loop of `get_tools_for_indicator`, as a standalone
fold from an arbitrary accumulator. -/
def measuresSourceAcc (rels : List RelationshipEdge) (indicator_id : String)
    (acc : List String) : List String :=
  rels.foldl (fun acc rel =>
    if rel.target_id == indicator_id && rel.relationship_type == "measures" then
      if acc.contains rel.source_id then acc else acc ++ [rel.source_id]
    else acc) acc

theorem get_tools_for_indicator_eq (b : RelationshipBuilder) (i : String) :
    b.get_tools_for_indicator i
      = (measuresSourceAcc b.relationships i []).filterMap
          (fun tool_id => b.tools.find tool_id) := rfl

theorem measuresSourceAcc_nodup (rels : List RelationshipEdge) (i : String)
    (acc : List String) (h : acc.Nodup) : (measuresSourceAcc rels i acc).Nodup := by
  induction rels generalizing acc with
  | nil => exact h
  | cons e rels ih =>
    simp only [measuresSourceAcc, List.foldl_cons]
    by_cases hc : (e.target_id == i && e.relationship_type == "measures") = true
    · rw [hc]
      by_cases hm : acc.contains e.source_id = true
      · simp only [hm, if_true]
        exact ih acc h
      · simp only [hm]
        refine ih (acc ++ [e.source_id]) ?_
        have : e.source_id ∉ acc := by simpa using hm
        simp [List.nodup_append, h, this]
    · rw [Bool.not_eq_true] at hc
      rw [hc]
      exact ih acc h

theorem mem_measuresSourceAcc (rels : List RelationshipEdge) (i : String)
    (acc : List String) (x : String) :
    x ∈ measuresSourceAcc rels i acc
      ↔ x ∈ acc ∨ ∃ e ∈ rels, e.target_id = i ∧ e.relationship_type = "measures"
          ∧ e.source_id = x := by
  induction rels generalizing acc with
  | nil => simp [measuresSourceAcc]
  | cons e rels ih =>
    simp only [measuresSourceAcc, List.foldl_cons] at ih ⊢
    by_cases hc : (e.target_id == i && e.relationship_type == "measures") = true
    · have hcp : e.target_id = i ∧ e.relationship_type = "measures" := by
        simpa using hc
      rw [hc]
      by_cases hm : acc.contains e.source_id = true
      · have hmm : e.source_id ∈ acc := by simpa using hm
        rw [if_pos hm, ih]
        have haux : (e.target_id = i ∧ e.relationship_type = "measures"
            ∧ e.source_id = x) → x ∈ acc := fun hp => hp.2.2 ▸ hmm
        simp only [List.mem_cons, or_and_right, exists_or, exists_eq_left]
        tauto
      · rw [if_neg hm, ih]
        have haux : (e.target_id = i ∧ e.relationship_type = "measures"
            ∧ e.source_id = x) ↔ x = e.source_id := by
          simp [hcp.1, hcp.2, eq_comm]
        simp only [List.mem_cons, or_and_right, exists_or, exists_eq_left,
          List.mem_append, List.mem_singleton, haux, if_true,
          List.not_mem_nil, or_false]
        exact or_assoc
    · rw [Bool.not_eq_true] at hc
      rw [hc, ih]
      have haux : ¬(e.target_id = i ∧ e.relationship_type = "measures"
          ∧ e.source_id = x) := by
        intro hp
        simp [hp.1, hp.2.1] at hc
      simp only [List.mem_cons, or_and_right, exists_or, exists_eq_left]
      tauto

/-- Looking an id up in a tool map whose values are keyed by their own id
returns a tool carrying that very id. -/
theorem AssocMap.find_some_id (tools : AssocMap Tool)
    (hkeys : ∀ p ∈ tools, (p.2).id = p.1) (tid : String) (t : Tool)
    (h : tools.find tid = some t) : t.id = tid := by
  unfold AssocMap.find at h
  cases hf : tools.find? (fun p => p.1 == tid) with
  | none => rw [hf] at h; simp at h
  | some p =>
    rw [hf] at h
    simp at h
    have hp1 : p.1 = tid := by simpa using List.find?_some hf
    have hp2 : p ∈ tools := List.mem_of_find?_eq_some hf
    rw [← h, hkeys p hp2, hp1]

theorem nodup_map_id_filterMap_find (tools : AssocMap Tool)
    (hkeys : ∀ p ∈ tools, (p.2).id = p.1) (ids : List String) (h : ids.Nodup) :
    ((ids.filterMap (fun tid => AssocMap.find tools tid)).map Tool.id).Nodup := by
  induction ids with
  | nil => simp
  | cons tid rest ih =>
    have hnd := List.nodup_cons.mp h
    cases hf : AssocMap.find tools tid with
    | none =>
      simp only [List.filterMap_cons, hf]
      exact ih hnd.2
    | some t =>
      simp only [List.filterMap_cons, hf, List.map_cons]
      rw [List.nodup_cons]
      refine ⟨?_, ih hnd.2⟩
      intro hmem
      obtain ⟨u, hu, hui⟩ := List.mem_map.mp hmem
      obtain ⟨uid, huid, hufind⟩ := List.mem_filterMap.mp hu
      have h1 : u.id = uid := AssocMap.find_some_id tools hkeys uid u hufind
      have h2 : t.id = tid := AssocMap.find_some_id tools hkeys tid t hf
      rw [h2] at hui
      rw [hui] at h1
      exact hnd.1 (h1 ▸ huid)

/-- C3: `get_tools_for_indicator i` returns each tool at most once — the
result's ids are duplicate-free even when several `measures` edges from the
same tool target `i` — and a tool belongs to the result exactly when it is
still resolvable in the tool map and some stored `measures` edge targeting
`i` has it as source (ghost ids are silently dropped).  The hypothesis is the
ingestion invariant: stored tools are keyed by their own id. -/
theorem get_tools_for_indicator_spec (b : RelationshipBuilder) (i : String)
    (hkeys : ∀ p ∈ b.tools, (p.2).id = p.1) :
    ((b.get_tools_for_indicator i).map Tool.id).Nodup
  ∧ (∀ t : Tool, t ∈ b.get_tools_for_indicator i ↔
      (b.tools.find t.id = some t
        ∧ ∃ e ∈ b.relationships, e.relationship_type = "measures"
            ∧ e.target_id = i ∧ e.source_id = t.id)) := by
  rw [get_tools_for_indicator_eq]
  constructor
  · exact nodup_map_id_filterMap_find b.tools hkeys _
      (measuresSourceAcc_nodup b.relationships i [] (by simp))
  · intro t
    constructor
    · intro hmem
      obtain ⟨tid, htid, hfind⟩ := List.mem_filterMap.mp hmem
      have hid : t.id = tid := AssocMap.find_some_id b.tools hkeys tid t hfind
      have hsrc := (mem_measuresSourceAcc b.relationships i [] tid).mp htid
      simp only [List.not_mem_nil, false_or] at hsrc
      obtain ⟨e, he, he1, he2, he3⟩ := hsrc
      exact ⟨hid ▸ hfind, e, he, he2, he1, hid ▸ he3⟩
    · intro ⟨hfind, e, he, he1, he2, he3⟩
      refine List.mem_filterMap.mpr ⟨t.id, ?_, hfind⟩
      refine (mem_measuresSourceAcc b.relationships i [] t.id).mpr ?_
      exact Or.inr ⟨e, he, he2, he1, he3⟩

/-- A builder with two `measures` edges from the same tool and one from a
ghost id, all targeting `license`. -/
def queryScenario : RelationshipBuilder :=
  { scenarioBuilder with relationships :=
      [measuresEdge "howfairis" "license",
       measuresEdge "howfairis" "license",
       measuresEdge "ghost" "license"] }

/-- Witness for C3 on `queryScenario`: the returned tool ids are
duplicate-free. -/
theorem get_tools_for_indicator_spec_witness :
    ((queryScenario.get_tools_for_indicator "license").map Tool.id).Nodup :=
  (get_tools_for_indicator_spec queryScenario "license" (by decide)).1

end Evapi
